import Mathlib

/-!
Verification of the Identity Isolation & Provisioning Pipeline
(`src/account-manager/main.py`) against its natural-language specification.

The Python source is shallowly embedded below: pure helpers become Lean
functions, the MongoDB collections become an explicit `DB` value threaded
through the operations, the Redis leasing store becomes an explicit
`LeaseStore` value, Python exceptions become `Except Cond`, and every draw
from `random` / every clock read / every observation of the interactive
browser surface becomes an explicit input parameter.  Selenium side effects
(clicks, key presses, screenshots, driver construction and shutdown) are
recorded in an explicit event log so that temporal claims (teardown pairing,
"no code submission after CAPTCHA detection") can be stated.
-/

/-! ### MD5 (used by `_generate_canvas_fingerprint` via `hashlib.md5`)

Machine words are modelled as `Nat` reduced modulo `2 ^ 32`.  The bitwise
operations are computed arithmetically, bit by bit, over a structural fuel of
32, so that every definition reduces inside the kernel. -/

/-- `2 ^ 32`, the word modulus. -/
def w32 : Nat := 4294967296

/-- Combine the low `fuel` bits of `x` and `y` with the bit operation `f`
(`f` receives each pair of bits as `0`/`1` values). -/
def bitwise32 (f : Nat → Nat → Nat) : Nat → Nat → Nat → Nat
  | 0, _, _ => 0
  | fuel + 1, x, y => f (x % 2) (y % 2) + 2 * bitwise32 f fuel (x / 2) (y / 2)

/-- 32-bit AND. -/
def land32 (x y : Nat) : Nat := bitwise32 (fun a b => a * b) 32 x y

/-- 32-bit OR. -/
def lor32 (x y : Nat) : Nat := bitwise32 (fun a b => a + b - a * b) 32 x y

/-- 32-bit XOR. -/
def lxor32 (x y : Nat) : Nat := bitwise32 (fun a b => (a + b) % 2) 32 x y

/-- 32-bit complement of a word already reduced modulo `w32`. -/
def not32 (x : Nat) : Nat := (w32 - 1) - x % w32

/-- Addition modulo `2 ^ 32`. -/
def addw (a b : Nat) : Nat := (a + b) % w32

/-- Left rotation of a 32-bit word by `s` places (`0 < s < 32` in the MD5
shift table), written with plain arithmetic. -/
def rotl32 (s x : Nat) : Nat := (x % w32 * 2 ^ s + x % w32 / 2 ^ (32 - s)) % w32

/-- The 64 MD5 round constants `K[i] = floor(abs(sin(i+1)) * 2^32)`. -/
def md5K : List Nat :=
  [0xd76aa478, 0xe8c7b756, 0x242070db, 0xc1bdceee,
   0xf57c0faf, 0x4787c62a, 0xa8304613, 0xfd469501,
   0x698098d8, 0x8b44f7af, 0xffff5bb1, 0x895cd7be,
   0x6b901122, 0xfd987193, 0xa679438e, 0x49b40821,
   0xf61e2562, 0xc040b340, 0x265e5a51, 0xe9b6c7aa,
   0xd62f105d, 0x02441453, 0xd8a1e681, 0xe7d3fbc8,
   0x21e1cde6, 0xc33707d6, 0xf4d50d87, 0x455a14ed,
   0xa9e3e905, 0xfcefa3f8, 0x676f02d9, 0x8d2a4c8a,
   0xfffa3942, 0x8771f681, 0x6d9d6122, 0xfde5380c,
   0xa4beea44, 0x4bdecfa9, 0xf6bb4b60, 0xbebfbc70,
   0x289b7ec6, 0xeaa127fa, 0xd4ef3085, 0x04881d05,
   0xd9d4d039, 0xe6db99e5, 0x1fa27cf8, 0xc4ac5665,
   0xf4292244, 0x432aff97, 0xab9423a7, 0xfc93a039,
   0x655b59c3, 0x8f0ccc92, 0xffeff47d, 0x85845dd1,
   0x6fa87e4f, 0xfe2ce6e0, 0xa3014314, 0x4e0811a1,
   0xf7537e82, 0xbd3af235, 0x2ad7d2bb, 0xeb86d391]

/-- The 64 MD5 per-round shift amounts. -/
def md5S : List Nat :=
  [7, 12, 17, 22, 7, 12, 17, 22, 7, 12, 17, 22, 7, 12, 17, 22,
   5, 9, 14, 20, 5, 9, 14, 20, 5, 9, 14, 20, 5, 9, 14, 20,
   4, 11, 16, 23, 4, 11, 16, 23, 4, 11, 16, 23, 4, 11, 16, 23,
   6, 10, 15, 21, 6, 10, 15, 21, 6, 10, 15, 21, 6, 10, 15, 21]

/-- The MD5 round mixing function and message-word index for round `i`. -/
def md5FG (i b c d : Nat) : Nat × Nat :=
  if i < 16 then (lor32 (land32 b c) (land32 (not32 b) d), i)
  else if i < 32 then (lor32 (land32 d b) (land32 (not32 d) c), (5 * i + 1) % 16)
  else if i < 48 then (lxor32 b (lxor32 c d), (3 * i + 5) % 16)
  else (lxor32 c (lor32 b (not32 d)), 7 * i % 16)

/-- One MD5 round, transforming the `(A, B, C, D)` state. -/
def md5Round (M : Nat → Nat) (st : Nat × Nat × Nat × Nat) (i : Nat) :
    Nat × Nat × Nat × Nat :=
  let (a, b, c, d) := st
  let (f, g) := md5FG i b c d
  let f := addw (addw (addw f a) (md5K.getD i 0)) (M g)
  (d, addw b (rotl32 (md5S.getD i 0) f), b, c)

/-- Process one 64-byte chunk (16 little-endian 32-bit message words). -/
def md5Chunk (st : Nat × Nat × Nat × Nat) (chunk : List Nat) :
    Nat × Nat × Nat × Nat :=
  let M : Nat → Nat := fun g =>
    chunk.getD (4 * g) 0 + 256 * chunk.getD (4 * g + 1) 0 +
      65536 * chunk.getD (4 * g + 2) 0 + 16777216 * chunk.getD (4 * g + 3) 0
  let (a0, b0, c0, d0) := st
  let (a, b, c, d) := (List.range 64).foldl (md5Round M) (a0, b0, c0, d0)
  (addw a0 a, addw b0 b, addw c0 c, addw d0 d)

/-- MD5 padding: a `0x80` byte, zeros up to 56 bytes modulo 64, then the bit
length as a 64-bit little-endian quantity. -/
def md5Pad (msg : List Nat) : List Nat :=
  let len := msg.length
  let padZeros := (119 - len % 64) % 64
  let bitLen := len * 8 % 2 ^ 64
  msg ++ [0x80] ++ List.replicate padZeros 0 ++
    (List.range 8).map (fun i => bitLen / 2 ^ (8 * i) % 256)

/-- Split a byte list into 64-byte chunks, structurally recursive on a fuel
bound (each step consumes at least one byte, so the length is enough fuel). -/
def chunksAux : Nat → List Nat → List (List Nat)
  | 0, _ => []
  | _, [] => []
  | fuel + 1, x :: xs => ((x :: xs).take 64) :: chunksAux fuel ((x :: xs).drop 64)

/-- Split a byte list into 64-byte chunks. -/
def chunks64 (l : List Nat) : List (List Nat) := chunksAux l.length l

/-- Two lowercase hex digits of one byte. -/
def hexByte (b : Nat) : List Char := [Nat.digitChar (b / 16 % 16), Nat.digitChar (b % 16)]

/-- Lowercase hex rendering of a 32-bit word, least-significant byte first. -/
def wordLEHex (w : Nat) : List Char :=
  hexByte (w % 256) ++ hexByte (w / 256 % 256) ++
    hexByte (w / 65536 % 256) ++ hexByte (w / 16777216 % 256)

/-- MD5 digest of a byte list, as the lowercase hex string `hexdigest` yields. -/
def md5Bytes (msg : List Nat) : String :=
  let st := (chunks64 (md5Pad msg)).foldl md5Chunk
    (0x67452301, 0xefcdab89, 0x98badcfe, 0x10325476)
  let (a, b, c, d) := st
  String.mk (wordLEHex a ++ wordLEHex b ++ wordLEHex c ++ wordLEHex d)

/-- UTF-8 encoding of one code point, as `str.encode()` produces. -/
def utf8Bytes (c : Nat) : List Nat :=
  if c < 128 then [c]
  else if c < 2048 then [192 + c / 64, 128 + c % 64]
  else if c < 65536 then [224 + c / 4096, 128 + c / 64 % 64, 128 + c % 64]
  else [240 + c / 262144, 128 + c / 4096 % 64, 128 + c / 64 % 64, 128 + c % 64]

/-- UTF-8 bytes of a string, as `seed.encode()` produces. -/
def strBytes (s : String) : List Nat := (s.data.map (fun c => utf8Bytes c.toNat)).flatten

/-- `hashlib.md5(s.encode()).hexdigest()`. -/
def md5_hex (s : String) : String := md5Bytes (strBytes s)

set_option maxRecDepth 4096

/-- Validation of the MD5 embedding against the RFC 1321 test vector for the
empty string. -/
theorem md5_test_empty : md5_hex "" = "d41d8cd98f00b204e9800998ecf8427e" := by decide

/-- Validation of the MD5 embedding against the RFC 1321 test vector for
"abc". -/
theorem md5_test_abc : md5_hex "abc" = "900150983cd24fb0d6963f7d28e17f72" := by decide

/-! ### Data model

Shallow embedding of the records of `src/account-manager/main.py`.  Clock
readings (`datetime.now()` and its `strftime` renderings) are modelled as
opaque strings supplied by the caller, and every value drawn from `random`
is an explicit numeric input. -/

/-- One proxy endpoint descriptor, as in the placeholder `proxy_list`. -/
structure Proxy where
  type : String
  ip : String
  port : String
  user : String
  password : String
deriving DecidableEq, Repr

/-- The shared Redis leasing store keyed by proxy endpoint.  The source only
ever mentions it in a comment: the `setex` call in `_assign_proxy` is
commented out, so nothing in the embedded code reads or writes it. -/
abbrev LeaseStore := List (String × String)

/-- The device info dict of `_generate_device_info`. -/
structure DeviceInfo where
  device_model : String
  os_version : String
  gpu : String
deriving DecidableEq, Repr

/-- The browser fingerprint dict of `_generate_browser_fingerprint`.
`pixel_ratio` is drawn from `[1, 1.25, 1.5, 2]`; those Python floats are
exact binary rationals, modelled as `Rat`. -/
structure Fingerprint where
  user_agent : String
  screen_resolution : String
  viewport_size : String
  color_depth : Nat
  pixel_ratio : Rat
  timezone_offset : Int
  language : String
  platform : String
  webgl_vendor : String
  canvas_fingerprint : String
deriving DecidableEq, Repr

/-- The `AccountProfile` dataclass. -/
structure AccountProfile where
  account_id : String
  user_id : String
  proxy_config : Proxy
  browser_fingerprint : Fingerprint
  language : String
  timezone : String
  device_info : DeviceInfo
  created_at : String
  last_active : String
  status : String
deriving DecidableEq, Repr

/-- The registration-result dict returned by `_register_tiktok_account`
(`password` is `None` when the password field never appeared). -/
structure TikTokProfile where
  username : String
  password : Option String
  phone : String
  status : String
  created_at : String
deriving DecidableEq, Repr

/-- One document of the `tiktok_accounts` collection, as written by
`_save_tiktok_profile`. -/
structure TikTokAccountRecord where
  account_id : String
  tiktok_profile : TikTokProfile
  status : String
deriving DecidableEq, Repr

/-- The MongoDB state: the `profiles` collection and the `tiktok_accounts`
collection. -/
structure DB where
  profiles : List AccountProfile
  tiktok_accounts : List TikTokAccountRecord
deriving DecidableEq, Repr

/-- The caller-supplied `account_config` dict (`.get` with defaults in the
source, hence `Option` fields). -/
structure Config where
  language : Option String
  timezone : Option String
  preferred_username : Option String
  bio : Option String
deriving DecidableEq, Repr

/-- Python exceptions that the embedded code can raise, together with the
place they originate. -/
inductive Cond where
  | noProxies
  | accountNotFound (account_id : String)
  | languageKeyError (language : String)
  | stepFailed (step : String)
  | captchaDetected
deriving DecidableEq, Repr

/-- `str(e)` for each modelled exception, as interpolated into the error
result of `create_tiktok_account`. -/
def Cond.message : Cond → String
  | noProxies => "No available proxies"
  | accountNotFound aid => "Account " ++ aid ++ " not found"
  | languageKeyError lang => "'" ++ lang ++ "'"
  | stepFailed step => "Timeout waiting for element: " ++ step
  | captchaDetected => "CAPTCHA detected, cannot proceed automatically."

/-- Observations of the interactive surface during one registration run:
whether each awaited UI element appears (within its `WebDriverWait` timeout)
on the page the driver is showing.  Each `try` block of
`_register_tiktok_account` collapses to one flag because a block either
completes or is skipped as a unit by its `except` handler. -/
structure Surface where
  phoneEmailButton : Bool
  birthdateForm : Bool
  phoneTab : Bool
  phoneInput : Bool
  passwordInput : Bool
  sendCodeButton : Bool
  captchaPresent : Bool
  verificationCodeInput : Bool
  finalSignupButton : Bool
  usernameInput : Bool
  photoPrompt : Bool
  bioInput : Bool
deriving DecidableEq, Repr

/-- Selenium side effects, recorded in program order as an event log. -/
inductive Event where
  | navigate
  | clickPhoneEmail
  | fillBirthdate
  | clickPhoneTab
  | inputPhone
  | inputPassword
  | clickSendCode
  | inputVerificationCode
  | clickFinalSignup
  | inputUsername
  | foundPhotoPrompt
  | fillBio
  | screenshot
  | buildBrowser
  | quitDriver
deriving DecidableEq, Repr

/-- The chrome options assembled by `get_browser_instance`. -/
structure ChromeOptions where
  args : List String
  excludeSwitches : List String
  useAutomationExtension : Bool
deriving DecidableEq, Repr

/-- The random draws consumed by `_generate_browser_fingerprint`.  Index
fields model `random.choice` (reduced modulo the list length), `ua` models
`self.ua.random`, and `canvasRand`/`canvasTime` are the rendered
`random.random()` and `datetime.now().timestamp()` substrings of the canvas
seed f-string. -/
structure FpRng where
  ua : String
  resIdx : Nat
  viewIdx : Nat
  depthIdx : Nat
  ratioIdx : Nat
  tzOffset : Int
  langIdx : Nat
  platIdx : Nat
  vendorIdx : Nat
  canvasRand : String
  canvasTime : String
deriving DecidableEq, Repr

/-- The random draws of `_generate_device_info`. -/
structure DevRng where
  modelIdx : Nat
  osIdx : Nat
  gpuIdx : Nat
deriving DecidableEq, Repr

/-- The random draws consumed inside `_register_tiktok_account`: the
birthdate dropdown values (sent to the UI only), the three segments of the
virtual phone number, the username suffix, and the twelve password character
draws. -/
structure RegRng where
  monthIdx : Nat
  day : Nat
  year : Nat
  phoneA : Nat
  phoneB : Nat
  phoneC : Nat
  unameSuffix : Nat
  pw : Nat → Nat

/-- The random draws of one whole provisioning attempt. -/
structure ProvisionRng where
  accountNum : Nat
  fp : FpRng
  dev : DevRng
  proxyIdx : Nat
  reg : RegRng

/-! ### Operations -/

/-- `random.choice(l)`: an arbitrary uniform draw, embedded as an arbitrary
index reduced modulo the list length (with an unused fallback for `[]`;
`random.choice` on a Python list literal is never given `[]` here). -/
def random_choice {α : Type} (l : List α) (i : Nat) (d : α) : α :=
  l.getD (i % l.length) d

/-- The `supported_languages` dict of `AccountIsolationManager.__init__`,
in insertion order (Python dicts preserve it). -/
def supported_languages : List (String × String × String) :=
  [("en", "English", "en-US"),
   ("zh", "Chinese", "zh-CN"),
   ("ja", "Japanese", "ja-JP"),
   ("ko", "Korean", "ko-KR"),
   ("es", "Spanish", "es-ES"),
   ("fr", "French", "fr-FR"),
   ("de", "German", "de-DE"),
   ("it", "Italian", "it-IT"),
   ("pt", "Portuguese", "pt-BR"),
   ("ru", "Russian", "ru-RU"),
   ("ar", "Arabic", "ar-SA"),
   ("hi", "Hindi", "hi-IN"),
   ("th", "Thai", "th-TH")]

/-- The locale of a `supported_languages` entry. -/
def localeOf (e : String × String × String) : String := e.2.2

/-- `_generate_canvas_fingerprint`: the MD5 hex digest of the f-string
seed built from `random.random()` and `datetime.now().timestamp()`,
whose rendered substrings are the two arguments. -/
def generate_canvas_fingerprint (rand timestamp : String) : String :=
  md5_hex (rand ++ timestamp)

/-- `_generate_browser_fingerprint`. -/
def generate_browser_fingerprint (rng : FpRng) : Fingerprint :=
  { user_agent := rng.ua,
    screen_resolution :=
      random_choice ["1920x1080", "1366x768", "1440x900", "1536x864"] rng.resIdx "1920x1080",
    viewport_size := random_choice ["1200x800", "1366x768", "1440x900"] rng.viewIdx "1200x800",
    color_depth := random_choice [24, 32] rng.depthIdx 24,
    pixel_ratio := random_choice [1, 5/4, 3/2, 2] rng.ratioIdx 1,
    timezone_offset := rng.tzOffset,
    language := random_choice (supported_languages.map (fun e => e.1)) rng.langIdx "en",
    platform := random_choice ["Win32", "MacIntel", "Linux x86_64"] rng.platIdx "Win32",
    webgl_vendor :=
      random_choice ["NVIDIA Corporation", "AMD", "Intel Inc."] rng.vendorIdx "NVIDIA Corporation",
    canvas_fingerprint := generate_canvas_fingerprint rng.canvasRand rng.canvasTime }

/-- `_generate_device_info`. -/
def generate_device_info (rng : DevRng) : DeviceInfo :=
  { device_model :=
      random_choice ["iPhone 13", "Samsung Galaxy S22", "Google Pixel 7"] rng.modelIdx "iPhone 13",
    os_version := random_choice ["iOS 16", "Android 13"] rng.osIdx "iOS 16",
    gpu := random_choice ["Apple A15 Bionic", "Adreno 730", "Mali-G710 MP10"] rng.gpuIdx
      "Apple A15 Bionic" }

/-- The placeholder proxy pool hardcoded inside `_assign_proxy`. -/
def proxy_list : List Proxy :=
  [{ type := "http", ip := "1.2.3.4", port := "8080", user := "user1", password := "password1" },
   { type := "socks5", ip := "5.6.7.8", port := "1080", user := "user2", password := "password2" }]

/-- `_assign_proxy`.  The pool is the embedded counterpart of the local
`proxy_list` literal, taken as a parameter so that the `if not proxy_list`
guard has a reachable failure branch; `create_tiktok_account` below is
always instantiated with `proxy_list` when a concrete run is evaluated.
The Redis `setex` recording proxy usage is commented out in the source, so
the leasing store passes through unread and unwritten. -/
def assign_proxy (pool : List Proxy) (choice : Nat) (store : LeaseStore) :
    Except Cond (Proxy × LeaseStore) :=
  match pool with
  | [] => Except.error Cond.noProxies
  | p :: rest => Except.ok (random_choice (p :: rest) choice p, store)

/-- `_save_account_profile`: `insert_one` on the `profiles` collection. -/
def save_account_profile (db : DB) (profile : AccountProfile) : DB :=
  { db with profiles := db.profiles ++ [profile] }

/-- `_get_account_profile`: `find_one` on `account_id`. -/
def get_account_profile (db : DB) (account_id : String) : Option AccountProfile :=
  db.profiles.find? (fun p => p.account_id == account_id)

/-- `create_isolated_account`.  Mirrors the source order: account id and
fingerprint first, then proxy assignment (whose exception propagates before
any profile is built or saved), then the profile is created with
`status='active'` and saved. -/
def create_isolated_account (user_id : String) (config : Config) (rng : ProvisionRng)
    (pool : List Proxy) (now : String) (db : DB) (store : LeaseStore) :
    Except Cond String × DB × LeaseStore :=
  let account_id := "tiktok_" ++ user_id ++ "_" ++ toString rng.accountNum
  let fingerprint := generate_browser_fingerprint rng.fp
  match assign_proxy pool rng.proxyIdx store with
  | Except.error c => (Except.error c, db, store)
  | Except.ok (proxy_config, store1) =>
    let profile : AccountProfile :=
      { account_id := account_id,
        user_id := user_id,
        proxy_config := proxy_config,
        browser_fingerprint := fingerprint,
        language := config.language.getD "en",
        timezone := config.timezone.getD "UTC",
        device_info := generate_device_info rng.dev,
        created_at := now,
        last_active := now,
        status := "active" }
    (Except.ok account_id, save_account_profile db profile, store1)

/-- `get_browser_instance`.  Success is the assembled Chrome configuration
(driver construction and the anti-detection scripts are external effects);
a missing profile raises, and the unguarded `supported_languages[...]`
subscript raises a `KeyError` for an unsupported stored language.  The
proxy argument is identical in both credential branches of the source. -/
def get_browser_instance (db : DB) (account_id : String) : Except Cond ChromeOptions :=
  match get_account_profile db account_id with
  | none => Except.error (Cond.accountNotFound account_id)
  | some profile =>
    let args := ["--no-sandbox", "--disable-dev-shm-usage",
                 "--disable-blink-features=AutomationControlled"]
    let proxy := profile.proxy_config
    let proxy_string := proxy.ip ++ ":" ++ proxy.port
    let args := args ++ ["--proxy-server=" ++ proxy.type ++ "://" ++ proxy_string]
    let args := args ++ ["--user-agent=" ++ profile.browser_fingerprint.user_agent]
    let resolution := profile.browser_fingerprint.screen_resolution
    let args := args ++ ["--window-size=" ++ resolution.replace "x" ","]
    match supported_languages.find? (fun e => e.1 == profile.language) with
    | none => Except.error (Cond.languageKeyError profile.language)
    | some entry =>
      let args := args ++ ["--lang=" ++ localeOf entry]
      let args := args ++ ["--user-data-dir=/tmp/chrome_profiles/" ++ account_id]
      Except.ok { args := args,
                  excludeSwitches := ["enable-automation"],
                  useAutomationExtension := false }

/-- `_generate_virtual_phone`: `f"1{a}{b}{c}"` with `a, b` drawn from
`randint(200, 999)` and `c` from `randint(1000, 9999)`. -/
def generate_virtual_phone (a b c : Nat) : String :=
  "1" ++ toString a ++ toString b ++ toString c

/-- `_generate_username`. -/
def generate_username (preferred : Option String) (nowFmt : String) (suffix : Nat) : String :=
  match preferred with
  | some p => p ++ "_" ++ toString suffix
  | none => "user_" ++ nowFmt ++ "_" ++ toString suffix

/-- The password character set of `_generate_secure_password`. -/
def password_chars : List Char :=
  "abcdefghijklmnopqrstuvwxyzABCDEFGHIJKLMNOPQRSTUVWXYZ0123456789!@#$%^&*()".data

/-- `_generate_secure_password`: twelve independent `random.choice` draws
from `password_chars`. -/
def generate_secure_password (pw : Nat → Nat) : String :=
  String.mk ((List.range 12).map (fun i => random_choice password_chars (pw i) 'a'))

/-- The `try` body of `_handle_captcha`: the wait for a CAPTCHA indicator
element raises a timeout when none is present, and when one is present the
code logs a warning and itself raises
`Exception("CAPTCHA detected, cannot proceed automatically.")`. -/
def handle_captcha_try (s : Surface) : Except Cond Unit :=
  if s.captchaPresent then Except.error Cond.captchaDetected
  else Except.error (Cond.stepFailed "captcha_element")

/-- `_handle_captcha`: the whole body sits inside one `try` whose bare
`except:` swallows every exception — including the CAPTCHA-detected
exception the body itself raises — and falls through to `pass`. -/
def handle_captcha (s : Surface) : Except Cond Unit :=
  match handle_captcha_try s with
  | Except.ok u => Except.ok u
  | Except.error _ => Except.ok ()

/-- The events of `_setup_profile` (both blocks swallow their failures). -/
def setup_profile_events (s : Surface) : List Event :=
  (if s.photoPrompt then [Event.foundPhotoPrompt] else []) ++
    (if s.bioInput then [Event.fillBio] else [])

/-- `_register_tiktok_account`.  Optional blocks (phone/email button,
birthdate, phone tab, password field, verification code, final signup,
username confirm, profile setup) log and continue when their element does
not appear; the phone-number input and the send-code button re-`raise` on
failure, which the outer handler turns into a screenshot plus re-raise. -/
def register_tiktok_account (config : Config) (s : Surface) (rng : RegRng) (now : String) :
    Except Cond TikTokProfile × List Event :=
  let log := [Event.navigate]
  let log := if s.phoneEmailButton then log ++ [Event.clickPhoneEmail] else log
  let log := if s.birthdateForm then log ++ [Event.fillBirthdate] else log
  let log := if s.phoneTab then log ++ [Event.clickPhoneTab] else log
  let phone := generate_virtual_phone rng.phoneA rng.phoneB rng.phoneC
  if s.phoneInput then
    let log := log ++ [Event.inputPhone]
    let username := generate_username config.preferred_username now rng.unameSuffix
    let password : Option String :=
      if s.passwordInput then some (generate_secure_password rng.pw) else none
    let log := if s.passwordInput then log ++ [Event.inputPassword] else log
    if s.sendCodeButton then
      let log := log ++ [Event.clickSendCode]
      match handle_captcha s with
      | Except.error c => (Except.error c, log ++ [Event.screenshot])
      | Except.ok _ =>
        let log := if s.verificationCodeInput then log ++ [Event.inputVerificationCode] else log
        let log := if s.finalSignupButton then log ++ [Event.clickFinalSignup] else log
        let log := if s.usernameInput then log ++ [Event.inputUsername] else log
        let log := log ++ setup_profile_events s
        (Except.ok { username := username, password := password, phone := phone,
                     status := "active", created_at := now }, log)
    else (Except.error (Cond.stepFailed "send_code_button"), log ++ [Event.screenshot])
  else (Except.error (Cond.stepFailed "phone_input"), log ++ [Event.screenshot])

/-- `_save_tiktok_profile`: `update_one` with `upsert=True` on the
`tiktok_accounts` collection — update the first record matching the account
id, or append a fresh one; in both cases the record status becomes
`registered`. -/
def update_first (l : List TikTokAccountRecord) (account_id : String) (tp : TikTokProfile) :
    List TikTokAccountRecord :=
  match l with
  | [] => []
  | r :: rs =>
    if r.account_id == account_id then
      { r with tiktok_profile := tp, status := "registered" } :: rs
    else r :: update_first rs account_id tp

/-- `_save_tiktok_profile`. -/
def save_tiktok_profile (db : DB) (account_id : String) (tp : TikTokProfile) : DB :=
  if db.tiktok_accounts.any (fun r => r.account_id == account_id) then
    { db with tiktok_accounts := update_first db.tiktok_accounts account_id tp }
  else
    { db with tiktok_accounts :=
        db.tiktok_accounts ++
          [{ account_id := account_id, tiktok_profile := tp, status := "registered" }] }

/-- The outcome of one `create_tiktok_account` call: the returned dict
(as the ordered key/value pairs of the Python dict literal), the MongoDB
state, the leasing store, and the event log of the attempt. -/
structure RunOutcome where
  result : List (String × String)
  db : DB
  store : LeaseStore
  log : List Event

/-- `create_tiktok_account`.  The single `try/except Exception` wraps the
whole pipeline: any raised condition becomes the error dict.  `driver.quit()`
(the `Event.quitDriver` entry) appears only on the success path of the
source — there is no `finally` — so a registration failure after the browser
was built leaves the log without a matching teardown. -/
def create_tiktok_account (user_id : String) (config : Config) (rng : ProvisionRng)
    (pool : List Proxy) (s : Surface) (now : String) (db : DB) (store : LeaseStore) :
    RunOutcome :=
  match create_isolated_account user_id config rng pool now db store with
  | (Except.error c, db1, store1) =>
    { result := [("status", "error"), ("message", c.message)],
      db := db1, store := store1, log := [] }
  | (Except.ok account_id, db1, store1) =>
    match get_browser_instance db1 account_id with
    | Except.error c =>
      { result := [("status", "error"), ("message", c.message)],
        db := db1, store := store1, log := [] }
    | Except.ok _opts =>
      let log := [Event.buildBrowser]
      match register_tiktok_account config s rng.reg now with
      | (Except.error c, rlog) =>
        { result := [("status", "error"), ("message", c.message)],
          db := db1, store := store1, log := log ++ rlog }
      | (Except.ok tprof, rlog) =>
        let db2 := save_tiktok_profile db1 account_id tprof
        { result := [("account_id", account_id), ("status", "created"),
                     ("tiktok_username", tprof.username)],
          db := db2, store := store1,
          log := log ++ rlog ++ [Event.quitDriver] }

/-! ### Concrete fixtures (used by counterexamples and witnesses) -/

/-- The account configuration of the source's own `__main__` test. -/
def cfg0 : Config :=
  { language := some "en", timezone := some "America/New_York",
    preferred_username := some "ai_creator_bot", bio := none }

/-- A concrete fingerprint randomness bundle. -/
def fp0 : FpRng :=
  { ua := "Mozilla/5.0", resIdx := 0, viewIdx := 0, depthIdx := 0, ratioIdx := 0,
    tzOffset := 0, langIdx := 0, platIdx := 0, vendorIdx := 0,
    canvasRand := "0.5", canvasTime := "100.0" }

/-- A concrete device randomness bundle. -/
def dev0 : DevRng := { modelIdx := 0, osIdx := 0, gpuIdx := 0 }

/-- A concrete registration randomness bundle. -/
def reg0 : RegRng :=
  { monthIdx := 0, day := 1, year := 1990, phoneA := 200, phoneB := 300,
    phoneC := 1000, unameSuffix := 100, pw := fun _ => 0 }

/-- A concrete provisioning randomness bundle. -/
def rng0 : ProvisionRng :=
  { accountNum := 12345, fp := fp0, dev := dev0, proxyIdx := 0, reg := reg0 }

/-- A surface on which every awaited element appears except the CAPTCHA
indicator. -/
def surfFull : Surface :=
  { phoneEmailButton := true, birthdateForm := true, phoneTab := true,
    phoneInput := true, passwordInput := true, sendCodeButton := true,
    captchaPresent := false, verificationCodeInput := true,
    finalSignupButton := true, usernameInput := true,
    photoPrompt := true, bioInput := true }

/-- A surface whose required phone-number input never appears. -/
def surfNoPhone : Surface := { surfFull with phoneInput := false }

/-- A surface reporting a CAPTCHA indicator. -/
def surfCaptcha : Surface := { surfFull with captchaPresent := true }

/-- A surface on which only the required elements appear. -/
def surfMinimal : Surface :=
  { phoneEmailButton := false, birthdateForm := false, phoneTab := false,
    phoneInput := true, passwordInput := false, sendCodeButton := true,
    captchaPresent := false, verificationCodeInput := false,
    finalSignupButton := false, usernameInput := false,
    photoPrompt := false, bioInput := false }

/-- An empty database. -/
def dbEmpty : DB := { profiles := [], tiktok_accounts := [] }

/-! ### Helper lemmas -/

/-- `random.choice` on a nonempty list yields an element of the list. -/
theorem random_choice_mem {α : Type} (l : List α) (i : Nat) (d : α) (h : l ≠ []) :
    random_choice l i d ∈ l := by
  unfold random_choice
  have hl : 0 < l.length := List.length_pos.mpr h
  have hm : i % l.length < l.length := Nat.mod_lt _ hl
  rw [List.getD_eq_getElem?_getD, List.getElem?_eq_getElem hm]
  exact List.getElem_mem hm

/-- `_handle_captcha` returns normally on every surface: both the
timeout of the indicator wait and the CAPTCHA-detected exception raised by
its own body are caught by the bare `except:` and turned into `pass`. -/
theorem handle_captcha_eq_ok (s : Surface) : handle_captcha s = Except.ok () := by
  cases h : s.captchaPresent <;> simp [handle_captcha, handle_captcha_try, h]

/-! ### Claims -/

/-- C1: the claim says that when a CAPTCHA indicator is detected the
registration machine aborts immediately with a distinct `CaptchaRequired`
condition and no verification-code submission is attempted.  The code
contradicts this: `_handle_captcha` raises its CAPTCHA exception inside the
same `try` whose bare `except:` swallows it, so the function always returns
normally, and a registration run on a CAPTCHA-reporting surface proceeds to
submit the verification code and terminates successfully. -/
theorem c1_captcha_exception_swallowed :
    (∀ s : Surface, handle_captcha s = Except.ok ()) ∧
    ∀ (config : Config) (s : Surface) (rng : RegRng) (now : String),
      s.captchaPresent = true → s.phoneInput = true → s.sendCodeButton = true →
      s.verificationCodeInput = true →
      ∃ tp log, register_tiktok_account config s rng now = (Except.ok tp, log) ∧
        Event.inputVerificationCode ∈ log := by
  refine ⟨handle_captcha_eq_ok, ?_⟩
  intro config s rng now hc hp hs hv
  simp only [register_tiktok_account, hp, hs, hv, handle_captcha_eq_ok, if_true]
  refine ⟨_, _, rfl, ?_⟩
  cases hf : s.finalSignupButton <;> cases hu : s.usernameInput <;>
    simp [hf, hu, List.mem_append]

/-- C1 witness: a concrete CAPTCHA-reporting surface on which registration
succeeds and the verification code is submitted. -/
theorem c1_witness :
    ∃ tp log, register_tiktok_account cfg0 surfCaptcha reg0 "t0" = (Except.ok tp, log) ∧
      Event.inputVerificationCode ∈ log :=
  c1_captcha_exception_swallowed.2 cfg0 surfCaptcha reg0 "t0" rfl rfl rfl rfl

/-- C2: the claim requires exactly one driver teardown per successful
browser build on every exit path.  The code has no `try/finally`:
`driver.quit()` sits on the success path only, so on a concrete attempt
whose required phone-input step fails after the browser was built the log
holds one `buildBrowser` and zero `quitDriver` events, while the success
path pairs them one-to-one. -/
theorem c2_teardown_missing_on_failure :
    ((create_tiktok_account "u1" cfg0 rng0 proxy_list surfNoPhone "t0" dbEmpty []).log.count
        Event.buildBrowser = 1 ∧
     (create_tiktok_account "u1" cfg0 rng0 proxy_list surfNoPhone "t0" dbEmpty []).log.count
        Event.quitDriver = 0 ∧
     (create_tiktok_account "u1" cfg0 rng0 proxy_list surfNoPhone "t0" dbEmpty []).result =
        [("status", "error"), ("message", "Timeout waiting for element: phone_input")]) ∧
    ((create_tiktok_account "u1" cfg0 rng0 proxy_list surfFull "t0" dbEmpty []).log.count
        Event.buildBrowser = 1 ∧
     (create_tiktok_account "u1" cfg0 rng0 proxy_list surfFull "t0" dbEmpty []).log.count
        Event.quitDriver = 1) := by decide

/-- C6: when proxy assignment raises (no proxy eligible), the exception
propagates out of `create_isolated_account` before any profile is built or
saved, so the profile store and the leasing store are returned unchanged. -/
theorem c6_no_capacity_leaves_store_unchanged :
    ∀ (user_id : String) (config : Config) (rng : ProvisionRng) (pool : List Proxy)
      (now : String) (db : DB) (store : LeaseStore) (c : Cond),
      assign_proxy pool rng.proxyIdx store = Except.error c →
      create_isolated_account user_id config rng pool now db store =
        (Except.error c, db, store) := by
  intro user_id config rng pool now db store c h
  simp only [create_isolated_account, h]

/-- C6 witness: the empty pool is the (only) input on which assignment
fails, and there the attempt leaves the stores untouched. -/
theorem c6_witness :
    assign_proxy ([] : List Proxy) rng0.proxyIdx ([] : LeaseStore) =
        Except.error Cond.noProxies ∧
    create_isolated_account "u1" cfg0 rng0 [] "t0" dbEmpty [] =
        (Except.error Cond.noProxies, dbEmpty, []) :=
  ⟨rfl, c6_no_capacity_leaves_store_unchanged "u1" cfg0 rng0 [] "t0" dbEmpty []
      Cond.noProxies rfl⟩

/-- C7: `create_tiktok_account` wraps the whole pipeline in one
`try/except Exception`, so for every input it returns either the full
success dict (exactly `account_id`, `status='created'`, `tiktok_username`)
or the error dict carrying the message of a classified condition — never an
escaped exception, never a partial success. -/
theorem c7_always_classified_result :
    ∀ (user_id : String) (config : Config) (rng : ProvisionRng) (pool : List Proxy)
      (s : Surface) (now : String) (db : DB) (store : LeaseStore),
      (∃ aid uname,
        (create_tiktok_account user_id config rng pool s now db store).result =
          [("account_id", aid), ("status", "created"), ("tiktok_username", uname)]) ∨
      (∃ c : Cond,
        (create_tiktok_account user_id config rng pool s now db store).result =
          [("status", "error"), ("message", c.message)]) := by
  intro user_id config rng pool s now db store
  unfold create_tiktok_account
  split
  · right; exact ⟨_, rfl⟩
  · split
    · right; exact ⟨_, rfl⟩
    · split
      · right; exact ⟨_, rfl⟩
      · left; exact ⟨_, _, rfl⟩

/-- C8 counterexample: the claim asserts that two consecutive generator
calls never produce identical canvas signatures, unconditionally.  The
signature is a pure function of the observed `random.random()` value and
`datetime.now().timestamp()` reading; nothing in the code prevents two
calls from observing the same pair (the clock has bounded resolution and
the RNG may repeat), and at any such coincidence the signatures coincide,
so the instance of the claim at these observations is false. -/
theorem c8_counterexample :
    ¬ (generate_canvas_fingerprint "0.5" "100.0" ≠
        generate_canvas_fingerprint "0.5" "100.0") :=
  fun h => h rfl

/-- C8 (amended): every enumerated fingerprint field is drawn from its
fixed set, and canvas signatures differ whenever the observed seed material
hashes differently (witnessed at two concrete observation pairs) — but
distinctness is only as strong as distinctness of the MD5 digests of the
observed seed strings, not unconditional. -/
theorem c8_fields_enumerated_and_canvas_hash :
    (∀ rng : FpRng,
      (generate_browser_fingerprint rng).screen_resolution ∈
          ["1920x1080", "1366x768", "1440x900", "1536x864"] ∧
      (generate_browser_fingerprint rng).viewport_size ∈
          ["1200x800", "1366x768", "1440x900"] ∧
      (generate_browser_fingerprint rng).color_depth ∈ [24, 32] ∧
      (generate_browser_fingerprint rng).pixel_ratio ∈ [1, 5/4, 3/2, 2] ∧
      (generate_browser_fingerprint rng).platform ∈ ["Win32", "MacIntel", "Linux x86_64"] ∧
      (generate_browser_fingerprint rng).webgl_vendor ∈
          ["NVIDIA Corporation", "AMD", "Intel Inc."] ∧
      (generate_browser_fingerprint rng).language ∈
          supported_languages.map (fun e => e.1)) ∧
    generate_canvas_fingerprint "0.5" "100.0" ≠ generate_canvas_fingerprint "0.25" "200.75" := by
  constructor
  · intro rng
    refine ⟨?_, ?_, ?_, ?_, ?_, ?_, ?_⟩ <;>
      exact random_choice_mem _ _ _ (by decide)
  · decide

/-- The first entry of the placeholder pool. -/
def proxyHttp : Proxy :=
  { type := "http", ip := "1.2.3.4", port := "8080", user := "user1", password := "password1" }

/-- C4 counterexample: two provisioning attempts assign proxies in sequence
(draws 0 and 2); the first returns the leasing store unchanged (no lease is
recorded — the `setex` is commented out), and the second, threaded on that
store, obtains the very same endpoint `1.2.3.4`, so both attempts hold one
endpoint with no lease distinguishing them — the claimed atomic
check-and-set exclusivity fails at this concrete input. -/
theorem c4_counterexample :
    assign_proxy proxy_list 0 ([] : LeaseStore) = Except.ok (proxyHttp, ([] : LeaseStore)) ∧
    assign_proxy proxy_list 2 ([] : LeaseStore) = Except.ok (proxyHttp, ([] : LeaseStore)) ∧
    proxyHttp.ip = "1.2.3.4" := ⟨rfl, rfl, rfl⟩

/-- C4 (amended): proxy assignment performs no check-and-set at all — on a
nonempty pool it returns an arbitrary pool element and passes the leasing
store through unread and unwritten (the Redis `setex` is commented out), so
concurrent attempts can hold the same endpoint; the only failure is the
empty pool. -/
theorem c4_no_lease_recorded :
    (∀ (pool : List Proxy) (choice : Nat) (store : LeaseStore),
      pool ≠ [] →
      ∃ p, assign_proxy pool choice store = Except.ok (p, store) ∧ p ∈ pool) ∧
    (∀ (choice : Nat) (store : LeaseStore),
      assign_proxy [] choice store = Except.error Cond.noProxies) := by
  constructor
  · intro pool choice store h
    match pool, h with
    | p :: rest, _ =>
      exact ⟨random_choice (p :: rest) choice p, rfl,
        random_choice_mem _ _ _ (List.cons_ne_nil p rest)⟩
  · intro choice store
    rfl

/-- C4 witness: the amended statement applied to the concrete pool. -/
theorem c4_witness :
    ∃ p, assign_proxy proxy_list 0 ([] : LeaseStore) = Except.ok (p, ([] : LeaseStore)) ∧
      p ∈ proxy_list :=
  c4_no_lease_recorded.1 proxy_list 0 [] (by decide)

/-- C3: optional steps whose element does not appear are logged and
skipped with the machine advancing unchanged (any combination of optional
elements still reaches the successful result as long as the two required
elements appear), while a missing required element — the phone-number input
or the send-code button — aborts the whole sequence with the originating
condition; at the orchestrator the attempt then surfaces as the error
result carrying that condition's message. -/
theorem c3_optional_skip_required_abort :
    (∀ (config : Config) (s : Surface) (rng : RegRng) (now : String),
      s.phoneInput = true → s.sendCodeButton = true →
      ∃ tp log, register_tiktok_account config s rng now = (Except.ok tp, log)) ∧
    (∀ (config : Config) (s : Surface) (rng : RegRng) (now : String),
      s.phoneInput = false →
      ∃ log, register_tiktok_account config s rng now =
        (Except.error (Cond.stepFailed "phone_input"), log)) ∧
    (∀ (config : Config) (s : Surface) (rng : RegRng) (now : String),
      s.phoneInput = true → s.sendCodeButton = false →
      ∃ log, register_tiktok_account config s rng now =
        (Except.error (Cond.stepFailed "send_code_button"), log)) ∧
    (∀ (user_id : String) (rng : ProvisionRng) (s : Surface) (now : String)
       (store : LeaseStore),
      s.phoneInput = false →
      (create_tiktok_account user_id cfg0 rng proxy_list s now dbEmpty store).result =
        [("status", "error"), ("message", (Cond.stepFailed "phone_input").message)]) := by
  refine ⟨?_, ?_, ?_, ?_⟩
  · intro config s rng now hp hs
    simp only [register_tiktok_account, hp, hs, handle_captcha_eq_ok, if_true]
    exact ⟨_, _, rfl⟩
  · intro config s rng now hp
    simp only [register_tiktok_account, hp, Bool.false_eq_true, if_false]
    exact ⟨_, rfl⟩
  · intro config s rng now hp hs
    simp only [register_tiktok_account, hp, hs, Bool.false_eq_true, if_true, if_false]
    exact ⟨_, rfl⟩
  · intro user_id rng s now store hp
    simp [create_tiktok_account, create_isolated_account, assign_proxy, proxy_list,
      get_browser_instance, get_account_profile, save_account_profile, dbEmpty, cfg0,
      supported_languages, List.find?, register_tiktok_account, hp, Cond.message, localeOf]

/-- C3 witness: the policy at concrete surfaces — only required elements
present still succeeds; a missing phone input and a missing send-code
button abort with their conditions; the orchestrator surfaces the message. -/
theorem c3_witness :
    (∃ tp log, register_tiktok_account cfg0 surfMinimal reg0 "t0" = (Except.ok tp, log)) ∧
    (∃ log, register_tiktok_account cfg0 surfNoPhone reg0 "t0" =
        (Except.error (Cond.stepFailed "phone_input"), log)) ∧
    (∃ log, register_tiktok_account cfg0 { surfFull with sendCodeButton := false } reg0 "t0" =
        (Except.error (Cond.stepFailed "send_code_button"), log)) ∧
    (create_tiktok_account "u1" cfg0 rng0 proxy_list surfNoPhone "t0" dbEmpty []).result =
        [("status", "error"), ("message", (Cond.stepFailed "phone_input").message)] :=
  ⟨c3_optional_skip_required_abort.1 cfg0 surfMinimal reg0 "t0" rfl rfl,
   c3_optional_skip_required_abort.2.1 cfg0 surfNoPhone reg0 "t0" rfl,
   c3_optional_skip_required_abort.2.2.1 cfg0 { surfFull with sendCodeButton := false }
     reg0 "t0" rfl rfl,
   c3_optional_skip_required_abort.2.2.2 "u1" rng0 surfNoPhone "t0" [] rfl⟩

/-- An `update_one` pass touches records only to mark them `registered`. -/
theorem update_first_status (l : List TikTokAccountRecord) (aid : String) (tp : TikTokProfile) :
    ∀ r ∈ update_first l aid tp, r ∈ l ∨ r.status = "registered" := by
  induction l with
  | nil => intro r hr; simp [update_first] at hr
  | cons x xs ih =>
    intro r hr
    by_cases h : (x.account_id == aid) = true
    · simp only [update_first, if_pos h] at hr
      rcases List.mem_cons.mp hr with h1 | h1
      · right; rw [h1]
      · left; exact List.mem_cons_of_mem _ h1
    · simp only [update_first, if_neg h] at hr
      rcases List.mem_cons.mp hr with h1 | h1
      · left; rw [h1]; exact List.mem_cons_self x xs
      · rcases ih r h1 with h2 | h2
        · left; exact List.mem_cons_of_mem _ h2
        · right; exact h2

/-- A matched `update_one` leaves some record holding the written profile
with status `registered`. -/
theorem update_first_hit (l : List TikTokAccountRecord) (aid : String) (tp : TikTokProfile)
    (h : l.any (fun q => q.account_id == aid) = true) :
    ∃ r ∈ update_first l aid tp, r.tiktok_profile = tp ∧ r.status = "registered" := by
  induction l with
  | nil => simp at h
  | cons x xs ih =>
    by_cases hx : (x.account_id == aid) = true
    · refine ⟨{ x with tiktok_profile := tp, status := "registered" }, ?_, rfl, rfl⟩
      simp only [update_first, if_pos hx]
      exact List.mem_cons_self _ _
    · have h' : xs.any (fun q => q.account_id == aid) = true := by
        simpa [hx] using h
      rcases ih h' with ⟨r, hr, h1, h2⟩
      refine ⟨r, ?_, h1, h2⟩
      simp only [update_first, if_neg hx]
      exact List.mem_cons_of_mem _ hr

/-- `_save_tiktok_profile` never touches the `profiles` collection and
writes `registered` as the only new status in `tiktok_accounts`. -/
theorem save_tiktok_profile_status (db : DB) (aid : String) (tp : TikTokProfile) :
    (save_tiktok_profile db aid tp).profiles = db.profiles ∧
    ∀ r ∈ (save_tiktok_profile db aid tp).tiktok_accounts,
      r ∈ db.tiktok_accounts ∨ r.status = "registered" := by
  by_cases h : (db.tiktok_accounts.any (fun q => q.account_id == aid)) = true
  · refine ⟨by simp [save_tiktok_profile, h], ?_⟩
    intro r hr
    simp only [save_tiktok_profile, if_pos h] at hr
    exact update_first_status _ _ _ r hr
  · refine ⟨by simp [save_tiktok_profile, h], ?_⟩
    intro r hr
    simp only [save_tiktok_profile, if_neg h] at hr
    rcases List.mem_append.mp hr with h1 | h1
    · left; exact h1
    · right; rw [List.mem_singleton.mp h1]

/-- `_save_tiktok_profile` always leaves a record holding the written
registration result, with status `registered`. -/
theorem save_tiktok_profile_hit (db : DB) (aid : String) (tp : TikTokProfile) :
    ∃ r ∈ (save_tiktok_profile db aid tp).tiktok_accounts,
      r.tiktok_profile = tp ∧ r.status = "registered" := by
  by_cases h : (db.tiktok_accounts.any (fun q => q.account_id == aid)) = true
  · simp only [save_tiktok_profile, if_pos h]
    exact update_first_hit _ _ _ h
  · simp only [save_tiktok_profile, if_neg h]
    exact ⟨_, List.mem_append_right _ (List.mem_singleton.mpr rfl), rfl, rfl⟩

/-- A failed `create_isolated_account` returns the profile store as it
received it. -/
theorem create_isolated_account_error (user_id : String) (config : Config)
    (rng : ProvisionRng) (pool : List Proxy) (now : String) (db : DB) (store : LeaseStore)
    (c : Cond) (db1 : DB) (st1 : LeaseStore) :
    create_isolated_account user_id config rng pool now db store =
      (Except.error c, db1, st1) → db1 = db := by
  unfold create_isolated_account
  cases hap : assign_proxy pool rng.proxyIdx store with
  | error c0 => intro h; simp only [Prod.mk.injEq] at h; exact h.2.1.symm
  | ok pr => intro h; simp only [Prod.mk.injEq] at h; exact absurd h.1 (by simp)

/-- A successful `create_isolated_account` appends exactly one profile,
created with status `active` and the caller-supplied language taken
unchecked from the configuration, and leaves `tiktok_accounts` untouched. -/
theorem create_isolated_account_ok (user_id : String) (config : Config)
    (rng : ProvisionRng) (pool : List Proxy) (now : String) (db : DB) (store : LeaseStore)
    (aid : String) (db1 : DB) (st1 : LeaseStore) :
    create_isolated_account user_id config rng pool now db store =
      (Except.ok aid, db1, st1) →
    ∃ p, db1 = { db with profiles := db.profiles ++ [p] } ∧ p.status = "active" ∧
      p.language = config.language.getD "en" := by
  unfold create_isolated_account
  cases hap : assign_proxy pool rng.proxyIdx store with
  | error c0 => intro h; simp only [Prod.mk.injEq] at h; exact absurd h.1 (by simp)
  | ok pr =>
    intro h
    simp only [Prod.mk.injEq] at h
    exact ⟨_, h.2.1.symm, rfl, rfl⟩

/-- C5 counterexample: the claim says the status field starts at `pending`
when the profile is created.  A concrete run of `create_isolated_account`
stores its profile with status `active` — the code assigns
`status='active'` directly at creation and `pending` never occurs. -/
theorem c5_counterexample :
    ((create_isolated_account "u1" cfg0 rng0 proxy_list "t0" dbEmpty []).2.1.profiles.map
        (fun p => p.status)) = ["active"] ∧ ("active" : String) ≠ "pending" :=
  ⟨rfl, by decide⟩

/-- C5 (amended): identity profiles are created directly with status
`active` (`pending` is never used); the registration outcome is recorded on
the separate `tiktok_accounts` record whose status becomes `registered`;
`failed` and `abandoned` are never written, so a store whose statuses lie
in {active, registered} stays in that set across a whole provisioning
attempt. -/
theorem c5_statuses_active_registered_only :
    (∀ (user_id : String) (config : Config) (rng : ProvisionRng) (pool : List Proxy)
       (now : String) (db : DB) (store : LeaseStore),
      (create_isolated_account user_id config rng pool now db store).1.isOk = true →
      ∃ p, (create_isolated_account user_id config rng pool now db store).2.1 =
          { db with profiles := db.profiles ++ [p] } ∧ p.status = "active") ∧
    (∀ (user_id : String) (config : Config) (rng : ProvisionRng) (pool : List Proxy)
       (s : Surface) (now : String) (db : DB) (store : LeaseStore),
      (∀ p ∈ db.profiles, p.status = "active" ∨ p.status = "registered") →
      (∀ r ∈ db.tiktok_accounts, r.status = "active" ∨ r.status = "registered") →
      (∀ p ∈ (create_tiktok_account user_id config rng pool s now db store).db.profiles,
          p.status = "active" ∨ p.status = "registered") ∧
      (∀ r ∈ (create_tiktok_account user_id config rng pool s now db store).db.tiktok_accounts,
          r.status = "active" ∨ r.status = "registered")) := by
  constructor
  · intro user_id config rng pool now db store h
    rcases hci : create_isolated_account user_id config rng pool now db store with
      ⟨e1, db1, st1⟩
    cases e1 with
    | error c => rw [hci] at h; simp [Except.isOk, Except.toBool] at h
    | ok aid =>
      rcases create_isolated_account_ok user_id config rng pool now db store aid db1 st1
        hci with ⟨p, hp, hs, hl⟩
      exact ⟨p, hp, hs⟩
  · intro user_id config rng pool s now db store hprof htik
    have hnew : ∀ (p : AccountProfile) (db1 : DB),
        db1 = { db with profiles := db.profiles ++ [p] } → p.status = "active" →
        (∀ q ∈ db1.profiles, q.status = "active" ∨ q.status = "registered") ∧
        (∀ r ∈ db1.tiktok_accounts, r.status = "active" ∨ r.status = "registered") := by
      intro p db1 hdb hps
      subst hdb
      refine ⟨?_, htik⟩
      intro q hq
      rcases List.mem_append.mp hq with h1 | h1
      · exact hprof q h1
      · left; rw [List.mem_singleton.mp h1]; exact hps
    unfold create_tiktok_account
    split
    · next c db1 st1 hci =>
      have := create_isolated_account_error user_id config rng pool now db store c db1 st1 hci
      subst this
      exact ⟨hprof, htik⟩
    · next aid db1 st1 hci =>
      rcases create_isolated_account_ok user_id config rng pool now db store aid db1 st1
        hci with ⟨p, hdb, hps, hpl⟩
      rcases hnew p db1 hdb hps with ⟨h1, h2⟩
      split
      · exact ⟨h1, h2⟩
      · split
        · exact ⟨h1, h2⟩
        · next tprof rlog hreg =>
          rcases save_tiktok_profile_status db1 aid tprof with ⟨hsp, hst⟩
          refine ⟨by rw [hsp]; exact h1, ?_⟩
          intro r hr
          rcases hst r hr with hmem | hregd
          · exact h2 r hmem
          · right; exact hregd

/-- C5 witness: the amended statement at concrete inputs. -/
theorem c5_witness :
    (∃ p, (create_isolated_account "u1" cfg0 rng0 proxy_list "t0" dbEmpty []).2.1 =
        { dbEmpty with profiles := dbEmpty.profiles ++ [p] } ∧ p.status = "active") ∧
    ((∀ p ∈ (create_tiktok_account "u1" cfg0 rng0 proxy_list surfFull "t0" dbEmpty
          []).db.profiles, p.status = "active" ∨ p.status = "registered") ∧
     (∀ r ∈ (create_tiktok_account "u1" cfg0 rng0 proxy_list surfFull "t0" dbEmpty
          []).db.tiktok_accounts, r.status = "active" ∨ r.status = "registered")) :=
  ⟨c5_statuses_active_registered_only.1 "u1" cfg0 rng0 proxy_list "t0" dbEmpty [] rfl,
   c5_statuses_active_registered_only.2 "u1" cfg0 rng0 proxy_list surfFull "t0" dbEmpty []
     (by simp [dbEmpty]) (by simp [dbEmpty])⟩

/-- A concrete stored fingerprint for lookup fixtures. -/
def fpStored : Fingerprint :=
  { user_agent := "Mozilla/5.0", screen_resolution := "1920x1080",
    viewport_size := "1200x800", color_depth := 24, pixel_ratio := 1,
    timezone_offset := 0, language := "en", platform := "Win32",
    webgl_vendor := "NVIDIA Corporation", canvas_fingerprint := "deadbeef" }

/-- A stored profile whose language `xx` is outside the supported set. -/
def profileXX : AccountProfile :=
  { account_id := "acct_xx", user_id := "u1", proxy_config := proxyHttp,
    browser_fingerprint := fpStored, language := "xx", timezone := "UTC",
    device_info := { device_model := "iPhone 13", os_version := "iOS 16",
                     gpu := "Apple A15 Bionic" },
    created_at := "t0", last_active := "t0", status := "active" }

/-- A stored profile with the supported language `en`. -/
def profileEN : AccountProfile := { profileXX with account_id := "acct_en", language := "en" }

/-- A database holding both stored profiles. -/
def dbStored : DB := { profiles := [profileXX, profileEN], tiktok_accounts := [] }

/-- C9: profile creation stores the caller-supplied language without any
validation, yet `get_browser_instance` subscripts `supported_languages`
with the stored language unguardedly — so the build of a stored profile
succeeds exactly when the language is among the 13 supported keys, and
faults with the `KeyError` of the unsupported language otherwise. -/
theorem c9_unsupported_language_faults_build :
    (supported_languages.map (fun e => e.1) =
      ["en", "zh", "ja", "ko", "es", "fr", "de", "it", "pt", "ru", "ar", "hi", "th"]) ∧
    (∀ (user_id lang : String) (tz pu bio : Option String) (rng : ProvisionRng)
       (pool : List Proxy) (now : String) (db : DB) (store : LeaseStore),
      (create_isolated_account user_id ⟨some lang, tz, pu, bio⟩ rng pool now db
          store).1.isOk = true →
      ∃ p, (create_isolated_account user_id ⟨some lang, tz, pu, bio⟩ rng pool now db
          store).2.1 = { db with profiles := db.profiles ++ [p] } ∧ p.language = lang) ∧
    (∀ (db : DB) (aid : String) (p : AccountProfile),
      get_account_profile db aid = some p →
      supported_languages.find? (fun e => e.1 == p.language) = none →
      get_browser_instance db aid = Except.error (Cond.languageKeyError p.language)) ∧
    (∀ (db : DB) (aid : String) (p : AccountProfile) (entry : String × String × String),
      get_account_profile db aid = some p →
      supported_languages.find? (fun e => e.1 == p.language) = some entry →
      ∃ opts, get_browser_instance db aid = Except.ok opts) := by
  refine ⟨by decide, ?_, ?_, ?_⟩
  · intro user_id lang tz pu bio rng pool now db store h
    rcases hci : create_isolated_account user_id ⟨some lang, tz, pu, bio⟩ rng pool now db
      store with ⟨e1, db1, st1⟩
    cases e1 with
    | error c => rw [hci] at h; simp [Except.isOk, Except.toBool] at h
    | ok aid =>
      rcases create_isolated_account_ok user_id ⟨some lang, tz, pu, bio⟩ rng pool now db
        store aid db1 st1 hci with ⟨p, hp, _, hl⟩
      exact ⟨p, hp, by simpa using hl⟩
  · intro db aid p h1 h2
    simp only [get_browser_instance, h1, h2]
  · intro db aid p entry h1 h2
    simp only [get_browser_instance, h1, h2]
    exact ⟨_, rfl⟩

/-- C9 witness: creation accepts the unsupported language `xx`; the stored
`xx` profile faults the build with its `KeyError` while the stored `en`
profile builds. -/
theorem c9_witness :
    (∃ p, (create_isolated_account "u1" ⟨some "xx", some "UTC", none, none⟩ rng0 proxy_list
        "t0" dbEmpty []).2.1 = { dbEmpty with profiles := dbEmpty.profiles ++ [p] } ∧
      p.language = "xx") ∧
    get_browser_instance dbStored "acct_xx" =
        Except.error (Cond.languageKeyError "xx") ∧
    (∃ opts, get_browser_instance dbStored "acct_en" = Except.ok opts) :=
  ⟨c9_unsupported_language_faults_build.2.1 "u1" "xx" (some "UTC") none none rng0
      proxy_list "t0" dbEmpty [] rfl,
   c9_unsupported_language_faults_build.2.2.1 dbStored "acct_xx" profileXX rfl rfl,
   c9_unsupported_language_faults_build.2.2.2 dbStored "acct_en" profileEN
      ("en", "English", "en-US") rfl rfl⟩

/-- A successful registration run returns exactly the profile built from
the generated username, the optionally captured password, and the generated
virtual phone number. -/
theorem register_ok_fields (config : Config) (s : Surface) (rng : RegRng) (now : String)
    (tp : TikTokProfile) (log : List Event) :
    register_tiktok_account config s rng now = (Except.ok tp, log) →
    tp = { username := generate_username config.preferred_username now rng.unameSuffix,
           password := if s.passwordInput then some (generate_secure_password rng.pw)
                       else none,
           phone := generate_virtual_phone rng.phoneA rng.phoneB rng.phoneC,
           status := "active", created_at := now } := by
  cases hp : s.phoneInput with
  | false =>
    intro h
    simp only [register_tiktok_account, hp, Bool.false_eq_true, if_false,
      Prod.mk.injEq] at h
    exact absurd h.1 (by simp)
  | true =>
    cases hs : s.sendCodeButton with
    | false =>
      intro h
      simp only [register_tiktok_account, hp, hs, Bool.false_eq_true, if_true, if_false,
        Prod.mk.injEq] at h
      exact absurd h.1 (by simp)
    | true =>
      intro h
      simp only [register_tiktok_account, hp, hs, handle_captcha_eq_ok, if_true,
        Prod.mk.injEq, Except.ok.injEq] at h
      exact h.1.symm

/-- C10: the returned dict never carries the generated password or phone
number — the result of an attempt is unchanged when the password draws and
phone-number draws are replaced (they flow only into the stored record);
its keys are exactly `account_id`, `status`, `tiktok_username` on success
and `status`, `message` on failure; and on success the password and phone
are persisted on the `tiktok_accounts` record. -/
theorem c10_secrets_never_in_result :
    (∀ (user_id : String) (config : Config) (n : Nat) (fp : FpRng) (dev : DevRng)
       (pi m d y a b c su : Nat) (pw : Nat → Nat) (a' b' c' : Nat) (pw' : Nat → Nat)
       (pool : List Proxy) (s : Surface) (now : String) (db : DB) (store : LeaseStore),
      (create_tiktok_account user_id config ⟨n, fp, dev, pi, ⟨m, d, y, a, b, c, su, pw⟩⟩
          pool s now db store).result =
      (create_tiktok_account user_id config ⟨n, fp, dev, pi, ⟨m, d, y, a', b', c', su, pw'⟩⟩
          pool s now db store).result) ∧
    (∀ (user_id : String) (config : Config) (rng : ProvisionRng) (pool : List Proxy)
       (s : Surface) (now : String) (db : DB) (store : LeaseStore),
      (create_tiktok_account user_id config rng pool s now db store).result.map Prod.fst =
          ["account_id", "status", "tiktok_username"] ∨
      (create_tiktok_account user_id config rng pool s now db store).result.map Prod.fst =
          ["status", "message"]) ∧
    (∀ (user_id : String) (config : Config) (rng : ProvisionRng) (pool : List Proxy)
       (s : Surface) (now : String) (db : DB) (store : LeaseStore) (aid uname : String),
      (create_tiktok_account user_id config rng pool s now db store).result =
          [("account_id", aid), ("status", "created"), ("tiktok_username", uname)] →
      ∃ r ∈ (create_tiktok_account user_id config rng pool s now db store).db.tiktok_accounts,
        r.tiktok_profile.phone =
            generate_virtual_phone rng.reg.phoneA rng.reg.phoneB rng.reg.phoneC ∧
        r.tiktok_profile.password =
            (if s.passwordInput then some (generate_secure_password rng.reg.pw) else none) ∧
        r.status = "registered") := by
  refine ⟨?_, ?_, ?_⟩
  · intro user_id config n fp dev pi m d y a b c su pw a' b' c' pw' pool s now db store
    have hci : create_isolated_account user_id config ⟨n, fp, dev, pi, ⟨m, d, y, a, b, c, su, pw⟩⟩
          pool now db store =
        create_isolated_account user_id config ⟨n, fp, dev, pi, ⟨m, d, y, a', b', c', su, pw'⟩⟩
          pool now db store := rfl
    unfold create_tiktok_account
    rw [← hci]
    split
    · rfl
    · split
      · rfl
      · cases hp : s.phoneInput with
        | false => simp [register_tiktok_account, hp]
        | true =>
          cases hs : s.sendCodeButton with
          | false => simp [register_tiktok_account, hp, hs]
          | true => simp [register_tiktok_account, hp, hs, handle_captcha_eq_ok]
  · intro user_id config rng pool s now db store
    unfold create_tiktok_account
    split
    · right; rfl
    · split
      · right; rfl
      · split
        · right; rfl
        · left; rfl
  · intro user_id config rng pool s now db store aid uname h
    unfold create_tiktok_account at h ⊢
    split at h
    · next c0 db1 st1 hci => simp at h
    · next aid1 db1 st1 hci =>
      split at h
      · next c0 hgb => simp at h
      · next opts hgb =>
        split at h
        · next c0 rlog hreg => simp at h
        · next tprof rlog hreg =>
          rcases save_tiktok_profile_hit db1 aid1 tprof with ⟨r, hr, hrp, hrs⟩
          refine ⟨r, hr, ?_, ?_, hrs⟩
          · rw [hrp, register_ok_fields config s rng.reg now tprof rlog hreg]
          · rw [hrp, register_ok_fields config s rng.reg now tprof rlog hreg]

/-- C10 witness: a concrete successful attempt whose stored record carries
the generated phone and password. -/
theorem c10_witness :
    ∃ r ∈ (create_tiktok_account "u1" cfg0 rng0 proxy_list surfFull "t0" dbEmpty
        []).db.tiktok_accounts,
      r.tiktok_profile.phone =
          generate_virtual_phone rng0.reg.phoneA rng0.reg.phoneB rng0.reg.phoneC ∧
      r.tiktok_profile.password =
          (if surfFull.passwordInput then some (generate_secure_password rng0.reg.pw)
           else none) ∧
      r.status = "registered" :=
  c10_secrets_never_in_result.2.2 "u1" cfg0 rng0 proxy_list surfFull "t0" dbEmpty []
    "tiktok_u1_12345" "ai_creator_bot_100" rfl
